import Mathlib

/-!
Verification development for the Trading212 MCP server
(`trading212_server.py`).  The Python source is shallowly embedded:

* pure helpers (`get_base_url`, `format_currency`, the percentage
  computation) become Lean functions on `String`, `ℚ` and option types;
* the HTTP bridge `make_request` takes the remote behaviour as an explicit
  `RemoteOutcome` argument and returns, next to its result, the list of
  network calls it performed, so that properties of the form "performs no
  network call" are statable;
* Python builtins used by the source (`str.strip`, `str.lower`,
  `int(...)`, `float(...)`, the `,.2f` / `+.2f` format specifiers) are
  modelled on ASCII strings and rational numbers.  The special float
  strings `inf` / `infinity` / `nan` accepted by Python `float` are kept
  apart in `PyNum` so that parsing them does not count as a failure.
-/

namespace Trading212

/-- Characters treated as whitespace by Python `str.strip` (ASCII subset). -/
def isPySpace (c : Char) : Bool :=
  c = ' ' || c = '\t' || c = '\n' || c = '\r' || c = '\x0b' || c = '\x0c'

/-- Strip leading and trailing whitespace from a character list. -/
def stripChars (cs : List Char) : List Char :=
  ((cs.dropWhile isPySpace).reverse.dropWhile isPySpace).reverse

/-- Model of Python `str.strip()`. -/
def pyStrip (s : String) : String :=
  String.mk (stripChars s.toList)

/-- Model of Python `str.lower()` (ASCII). -/
def pyLower (s : String) : String := String.mk (s.toList.map Char.toLower)

/-- Model of Python `str.upper()` (ASCII). -/
def pyUpper (s : String) : String := String.mk (s.toList.map Char.toUpper)

/-- Scan a run of decimal digits in which single underscores may separate
digits (Python numeric literal grouping).  Accumulates the value `v` and the
number of digits `n` seen so far; returns the final value and digit count. -/
def digitsVal (v n : Nat) : List Char → Option (Nat × Nat)
  | [] => some (v, n)
  | c :: cs =>
    if c.isDigit then digitsVal (v * 10 + (c.toNat - 48)) (n + 1) cs
    else if c = '_' then
      match cs with
      | [] => none
      | d :: cs2 =>
        if d.isDigit then digitsVal (v * 10 + (d.toNat - 48)) (n + 1) cs2
        else none
    else none

/-- A nonempty digit run (underscore grouping allowed): value and count. -/
def parseDigitsU : List Char → Option (Nat × Nat)
  | [] => none
  | c :: cs => if c.isDigit then digitsVal (c.toNat - 48) 1 cs else none

/-- Model of Python `int(str)`: surrounding whitespace, an optional sign and
a digit run.  `none` models the `ValueError` raised on anything else. -/
def pyInt (s : String) : Option Int :=
  match stripChars s.toList with
  | '+' :: rest => (parseDigitsU rest).map (fun p => (p.1 : Int))
  | '-' :: rest => (parseDigitsU rest).map (fun p => -(p.1 : Int))
  | cs => (parseDigitsU cs).map (fun p => (p.1 : Int))

/-- A Python float value: finite (modelled as a rational), infinite or NaN. -/
inductive PyNum where
  | fin (q : ℚ)
  | inf (neg : Bool)
  | nan
  deriving DecidableEq

/-- Split a character list at the first character satisfying `isMark`;
the second component is `none` when no such character occurs. -/
def splitAtMark (isMark : Char → Bool) : List Char → List Char × Option (List Char)
  | [] => ([], none)
  | c :: cs =>
    if isMark c then ([], some cs)
    else
      let r := splitAtMark isMark cs
      (c :: r.1, r.2)

/-- Mantissa of a float literal: `digits`, `digits.`, `.digits` or
`digits.digits`, with underscore grouping inside each digit run. -/
def parseMantissa (cs : List Char) : Option ℚ :=
  let p := splitAtMark (fun c => c = '.') cs
  match p.2 with
  | none => (parseDigitsU p.1).map (fun d => (d.1 : ℚ))
  | some fp =>
    match p.1, fp with
    | [], [] => none
    | [], fpp => (parseDigitsU fpp).map (fun d => (d.1 : ℚ) / 10 ^ d.2)
    | ip, [] => (parseDigitsU ip).map (fun d => (d.1 : ℚ))
    | ip, fpp =>
      match parseDigitsU ip, parseDigitsU fpp with
      | some di, some df => some ((di.1 : ℚ) + (df.1 : ℚ) / 10 ^ df.2)
      | _, _ => none

/-- Exponent part of a float literal: optional sign and a digit run. -/
def parseExp : List Char → Option Int
  | '+' :: rest => (parseDigitsU rest).map (fun p => (p.1 : Int))
  | '-' :: rest => (parseDigitsU rest).map (fun p => -(p.1 : Int))
  | cs => (parseDigitsU cs).map (fun p => (p.1 : Int))

/-- Decimal float literal: mantissa with an optional `e`/`E` exponent. -/
def parseDecimal (cs : List Char) : Option ℚ :=
  let p := splitAtMark (fun c => c = 'e' || c = 'E') cs
  match p.2 with
  | none => parseMantissa p.1
  | some ecs =>
    match parseMantissa p.1, parseExp ecs with
    | some m, some ex => some (m * 10 ^ ex)
    | _, _ => none

/-- Model of Python `float(str)`: whitespace and sign, then either one of
the special words `inf` / `infinity` / `nan` (case-insensitive) or a decimal
literal.  `none` models the `ValueError` raised on anything else. -/
def pyFloat (s : String) : Option PyNum :=
  let cs := stripChars s.toList
  let sgn : Bool × List Char :=
    match cs with
    | '+' :: r => (false, r)
    | '-' :: r => (true, r)
    | r => (false, r)
  let low := sgn.2.map Char.toLower
  if low = "inf".toList || low = "infinity".toList then some (.inf sgn.1)
  else if low = "nan".toList then some .nan
  else (parseDecimal sgn.2).map (fun q => .fin (if sgn.1 then -q else q))

/-- Two-digit zero-padded rendering of a value below 100. -/
def twoDigitStr (n : Nat) : String :=
  (if n < 10 then "0" else "") ++ toString n

/-- Chunk a list into groups of three (used on reversed digit lists). -/
def chunk3 : List Char → List (List Char)
  | a :: b :: c :: rest => [a, b, c] :: chunk3 rest
  | [] => []
  | l => [l]

/-- Decimal digits of a natural number with thousands separators. -/
def groupNat (n : Nat) : String :=
  String.mk ((List.intercalate [','] (chunk3 (Nat.toDigits 10 n).reverse)).reverse)

/-- Number of cents of the absolute value of `q`, rounded half-up.  Python
formats floats with round-half-even on the binary value; the two agree on
every payload considered here, and the rounding mode is irrelevant to the
properties proved below. -/
def centsOf (q : ℚ) : Nat :=
  (⌊(if q < 0 then -q else q) * 100 + 1 / 2⌋).toNat

/-- Model of the Python format specifier `,.2f`: sign, thousands-separated
integer part, and exactly two decimals. -/
def commaTwoDec (q : ℚ) : String :=
  (if q < 0 then "-" else "")
    ++ (groupNat (centsOf q / 100) ++ ("." ++ twoDigitStr (centsOf q % 100)))

/-- Model of the Python format specifier `+.2f`: explicit sign and exactly
two decimals, no thousands separators. -/
def signedTwoDec (q : ℚ) : String :=
  (if q < 0 then "-" else "+")
    ++ (toString (centsOf q / 100) ++ ("." ++ twoDigitStr (centsOf q % 100)))

/-- A JSON scalar as the formatters see it: a number or a string. -/
inductive PyVal where
  | num (x : PyNum)
  | str (s : String)
  deriving DecidableEq

/-- Rendering of a float by the `,.2f` specifier, including the special
values (Python renders them as `inf` / `-inf` / `nan`). -/
def numTwoDec : PyNum → String
  | .fin q => commaTwoDec q
  | .inf neg => if neg then "-inf" else "inf"
  | .nan => "nan"

/-- The source's `format_currency`: try `float(value)` and render it as
a dollar amount; on conversion failure fall back to `str(value)`. -/
def format_currency (v : PyVal) : String :=
  match v with
  | .num x => "$" ++ numTwoDec x
  | .str s =>
    match pyFloat s with
    | some x => "$" ++ numTwoDec x
    | none => s

/-- Display form of a JSON number interpolated directly into an f-string.
The exact Python float `repr` is not modelled; no proved property depends
on this rendering. -/
def ratRepr (q : ℚ) : String := toString q

/-- Display form of a parsed Python float interpolated into an f-string. -/
def numRepr : PyNum → String
  | .fin q => ratRepr q
  | .inf neg => if neg then "-inf" else "inf"
  | .nan => "nan"

/-- Demo endpoint root (`DEMO_BASE_URL` in the source). -/
def DEMO_BASE_URL : String := "https://demo.trading212.com/api/v0"

/-- Live endpoint root (`LIVE_BASE_URL` in the source). -/
def LIVE_BASE_URL : String := "https://live.trading212.com/api/v0"

/-- The module-level `ENVIRONMENT` value:
`os.environ.get("TRADING212_ENVIRONMENT", "live")`. -/
def environmentSetting (env : Option String) : String := env.getD "live"

/-- The source's `get_base_url`, applied to the `ENVIRONMENT` string. -/
def get_base_url (environment : String) : String :=
  if pyLower environment = "live" then LIVE_BASE_URL else DEMO_BASE_URL

/-- Base URL as resolved from the raw environment variable (absent = `none`). -/
def resolved_base_url (env : Option String) : String :=
  get_base_url (environmentSetting env)

/-- The module-level configuration read from the environment. -/
structure Config where
  apiKey : String
  apiSecret : String
  environment : String

/-- The trailing environment banner appended by most tool formatters. -/
def envSuffix (cfg : Config) : String := "Environment: " ++ pyUpper cfg.environment

/-- An HTTP response as `make_request` observes it: status code, raw body
text, the body parsed as JSON of the expected shape (`none` models a JSON
decode failure) and the text of the `HTTPStatusError` / decode exception. -/
structure HttpResponse (α : Type) where
  statusCode : Nat
  text : String
  json : Option α
  statusText : String

/-- Behaviour of the remote endpoint for one call: either a response or a
transport failure (DNS, connection, timeout). -/
inductive RemoteOutcome (α : Type) where
  | response (r : HttpResponse α)
  | transportFailure (msg : String)

/-- The network calls performed by an operation: method and full URL. -/
abbrev Calls := List (String × String)

/-- The four dispatched methods of `make_request`. -/
def supportedMethods : List String := ["GET", "POST", "DELETE", "PUT"]

/-- The uniform result returned when credentials are missing. -/
def notConfiguredText : String :=
  "❌ Error: API_KEY and API_SECRET environment variables not set"

/-- The error text built for a non-2xx response: failure marker, numeric
status code, and the raw body, falling back to the exception text when the
body is empty. -/
def apiErrorText (status : Nat) (body fallback : String) : String :=
  "❌ API Error (" ++ (toString status ++ ("): "
    ++ (if body = "" then fallback else body)))

/-- The status handling of `make_request` once a response arrived:
`raise_for_status` (any non-2xx status raises) followed by `.json()`. -/
def handleResponse {α : Type} (method url : String) (r : HttpResponse α) :
    Except String α × Calls :=
  if 200 ≤ r.statusCode ∧ r.statusCode < 300 then
    match r.json with
    | some v => (.ok v, [(method, url)])
    | none => (.error ("❌ Error: " ++ r.statusText), [(method, url)])
  else
    (.error (apiErrorText r.statusCode r.text r.statusText), [(method, url)])

/-- The source's `make_request`.  The request body parameter of the source
is not modelled: the operations always pass a `json.dumps` result, so the
`json.loads` inside can never fail and no modelled result depends on it. -/
def make_request {α : Type} (cfg : Config) (method endp : String)
    (remote : RemoteOutcome α) : Except String α × Calls :=
  if cfg.apiKey = "" ∨ cfg.apiSecret = "" then
    (.error notConfiguredText, [])
  else if method ∈ supportedMethods then
    match remote with
    | .transportFailure msg =>
      (.error ("❌ Error: " ++ msg), [(method, get_base_url cfg.environment ++ endp)])
    | .response r => handleResponse method (get_base_url cfg.environment ++ endp) r
  else (.error ("❌ Error: Unsupported method " ++ method), [])

/-- A successful 2xx response carrying the given decoded body. -/
def okResponse {α : Type} (v : α) : RemoteOutcome α :=
  .response ⟨200, "", some v, ""⟩

/-- The pattern shared by every tool: return a bridge error text unchanged,
otherwise format the decoded payload (the source checks
`isinstance(result, str) and result.startswith("❌")`). -/
def dispatch {α : Type} (mr : Except String α × Calls) (f : α → String) :
    String × Calls :=
  match mr with
  | (.error e, c) => (e, c)
  | (.ok r, c) => (f r, c)

/-- Concatenation of rendered blocks, as built by the `output +=` loops. -/
def strConcat : List String → String
  | [] => ""
  | s :: rest => s ++ strConcat rest

/-- Last character of a string, if any. -/
def lastChar (s : String) : Option Char := s.toList.getLast?

/-- Whether `tail` is a suffix of `s` (boolean, executable). -/
def endsWithStr (s tail : String) : Bool := tail.toList.isSuffixOf s.toList

/-- Payload of `/equity/account/info`. -/
structure AccountInfo where
  id : Option String
  currencyCode : Option String
  cash : Option PyVal

/-- Formatter of `get_account_info`. -/
def render_account_info (cfg : Config) (r : AccountInfo) : String :=
  "📊 Account Information:\n- Account ID: " ++ r.id.getD "N/A"
    ++ "\n- Currency: " ++ r.currencyCode.getD "N/A"
    ++ "\n- Cash Available: " ++ format_currency (r.cash.getD (.num (.fin 0)))
    ++ "\n\n" ++ envSuffix cfg

/-- The `get_account_info` tool. -/
def get_account_info (cfg : Config) (remote : RemoteOutcome AccountInfo) :
    String × Calls :=
  dispatch (make_request cfg "GET" "/equity/account/info" remote)
    (fun r => render_account_info cfg r)

/-- One portfolio position (`/equity/portfolio` and `/equity/portfolio/T`). -/
structure Position where
  ticker : Option String
  quantity : Option ℚ
  averagePrice : Option ℚ
  currentPrice : Option ℚ
  ppl : Option ℚ
  initialFillDate : Option String
  maxBuy : Option ℚ
  maxSell : Option ℚ

/-- The return-percentage expression of `get_portfolio` / `get_position`:
`(ppl / (avg_price * quantity) * 100) if avg_price * quantity > 0 else 0`. -/
def return_percent (ppl avg qty : ℚ) : ℚ :=
  if avg * qty > 0 then ppl / (avg * qty) * 100 else 0

/-- One block of the `get_portfolio` listing. -/
def render_portfolio_position (p : Position) : String :=
  let qty := p.quantity.getD 0
  let avg := p.averagePrice.getD 0
  let cur := p.currentPrice.getD 0
  let ppl := p.ppl.getD 0
  "📈 " ++ p.ticker.getD "N/A"
    ++ "\n   Quantity: " ++ ratRepr qty
    ++ "\n   Avg Price: " ++ format_currency (.num (.fin avg))
    ++ "\n   Current: " ++ format_currency (.num (.fin cur))
    ++ "\n   P/L: " ++ format_currency (.num (.fin ppl))
    ++ " (" ++ signedTwoDec (return_percent ppl avg qty) ++ "%)\n   \n"

/-- Formatter of `get_portfolio` (empty check plus listing). -/
def render_portfolio_page (cfg : Config) (ps : List Position) : String :=
  if ps.isEmpty then "📊 Portfolio is empty"
  else "📊 Portfolio Positions:\n\n"
    ++ strConcat (ps.map render_portfolio_position) ++ envSuffix cfg

/-- The `get_portfolio` tool. -/
def get_portfolio (cfg : Config) (remote : RemoteOutcome (List Position)) :
    String × Calls :=
  dispatch (make_request cfg "GET" "/equity/portfolio" remote)
    (render_portfolio_page cfg)

/-- Formatter of `get_position`. -/
def render_position_details (cfg : Config) (r : Position) : String :=
  let qty := r.quantity.getD 0
  let avg := r.averagePrice.getD 0
  let cur := r.currentPrice.getD 0
  let ppl := r.ppl.getD 0
  "📈 Position Details: " ++ r.ticker.getD "N/A"
    ++ "\n\n📊 Holdings:\n- Quantity: " ++ ratRepr qty
    ++ "\n- Average Price: " ++ format_currency (.num (.fin avg))
    ++ "\n- Current Price: " ++ format_currency (.num (.fin cur))
    ++ "\n- Total Value: " ++ format_currency (.num (.fin (qty * cur)))
    ++ "\n\n💰 Performance:\n- P/L: " ++ format_currency (.num (.fin ppl))
    ++ "\n- Return: " ++ signedTwoDec (return_percent ppl avg qty) ++ "%"
    ++ "\n\n📅 Details:\n- Initial Fill: " ++ r.initialFillDate.getD "N/A"
    ++ "\n- Max Buy: " ++ ratRepr (r.maxBuy.getD 0)
    ++ "\n- Max Sell: " ++ ratRepr (r.maxSell.getD 0)
    ++ "\n\n" ++ envSuffix cfg

/-- The `get_position` tool. -/
def get_position (cfg : Config) (ticker : String)
    (remote : RemoteOutcome Position) : String × Calls :=
  if pyStrip ticker = "" then ("❌ Error: Ticker symbol is required", [])
  else
    dispatch (make_request cfg "GET" ("/equity/portfolio/" ++ ticker) remote)
      (fun r => render_position_details cfg r)

/-- One working schedule of an exchange. -/
structure WorkSchedule where
  openTime : Option String
  closeTime : Option String

/-- Payload element of `/equity/metadata/exchanges`. -/
structure Exchange where
  name : Option String
  id : Option String
  workingSchedules : List WorkSchedule

/-- One trading-hours line of the exchange listing. -/
def render_schedule (s : WorkSchedule) : String :=
  "   - " ++ s.openTime.getD "N/A" ++ " to " ++ s.closeTime.getD "N/A" ++ "\n"

/-- One block of the exchange listing (always ends with a newline). -/
def render_exchange (e : Exchange) : String :=
  "📍 " ++ e.name.getD "N/A" ++ " (ID: " ++ e.id.getD "N/A" ++ ")\n"
    ++ (if e.workingSchedules.isEmpty then ""
        else "   Trading Hours:\n"
          ++ strConcat ((e.workingSchedules.take 3).map render_schedule))
    ++ "\n"

/-- Formatter of `list_exchanges` (empty check plus listing).  Note: no
environment banner is appended here. -/
def render_exchanges_page (exs : List Exchange) : String :=
  if exs.isEmpty then "📊 No exchanges found"
  else "🌐 Available Exchanges:\n\n" ++ strConcat (exs.map render_exchange)

/-- The `list_exchanges` tool.  Note: its success branch returns the listing
without the environment banner. -/
def list_exchanges (cfg : Config) (remote : RemoteOutcome (List Exchange)) :
    String × Calls :=
  dispatch (make_request cfg "GET" "/equity/metadata/exchanges" remote)
    render_exchanges_page

/-- Payload element of `/equity/metadata/instruments`. -/
structure Instrument where
  ticker : Option String
  name : Option String
  currencyCode : Option String
  itype : Option String

/-- Is `needle` a contiguous sublist of `hay`?  (Model of Python `in` on
strings, applied to lowered character lists.) -/
def isSubseg (needle : List Char) : List Char → Bool
  | [] => needle.isEmpty
  | c :: cs => needle.isPrefixOf (c :: cs) || isSubseg needle cs

/-- The filter predicate of `search_instruments`: the lowered query occurs
in the lowered ticker or the lowered name (missing fields default to ""). -/
def matchesQuery (query : String) (i : Instrument) : Bool :=
  isSubseg (pyLower query).toList (pyLower (i.ticker.getD "")).toList
    || isSubseg (pyLower query).toList (pyLower (i.name.getD "")).toList

/-- The `matches` list comprehension of `search_instruments`. -/
def searchMatches (query : String) (insts : List Instrument) : List Instrument :=
  insts.filter (matchesQuery query)

/-- One block of the search listing (always ends with a blank line). -/
def render_instrument (i : Instrument) : String :=
  "📊 " ++ i.ticker.getD "N/A" ++ " - " ++ i.name.getD "N/A"
    ++ "\n   Type: " ++ i.itype.getD "N/A"
    ++ " | Currency: " ++ i.currencyCode.getD "N/A" ++ "\n\n"

/-- Header line of the search listing. -/
def search_header (query : String) : String :=
  "🔍 Search Results for \x27" ++ query ++ "\x27:\n\n"

/-- Formatter of `search_instruments` (filter, truncation at 10, and the
one-more note).  Note: no environment banner is appended here. -/
def search_render (query : String) (insts : List Instrument) : String :=
  if (searchMatches query insts).isEmpty then
    "🔍 No instruments found matching \x27" ++ query ++ "\x27"
  else
    search_header query
      ++ strConcat (((searchMatches query insts).take 10).map render_instrument)
      ++ (if (searchMatches query insts).length > 10 then
            "... and " ++ toString ((searchMatches query insts).length - 10)
              ++ " more results\n"
          else "")

/-- The `search_instruments` tool.  Note: its success branch returns the
listing without the environment banner. -/
def search_instruments (cfg : Config) (query : String)
    (remote : RemoteOutcome (List Instrument)) : String × Calls :=
  if pyStrip query = "" then ("❌ Error: Search query is required", [])
  else
    dispatch (make_request cfg "GET" "/equity/metadata/instruments" remote)
      (search_render query)

/-- Payload of a placed order (`id` and `status` are displayed). -/
structure OrderResult where
  id : Option String
  status : Option String

/-- Formatter of a placed market order. -/
def render_market_order (cfg : Config) (ticker : String) (qf : PyNum)
    (r : OrderResult) : String :=
  "✅ Market Order Placed:\n\nOrder ID: " ++ r.id.getD "N/A"
    ++ "\nTicker: " ++ ticker
    ++ "\nQuantity: " ++ numRepr qf
    ++ "\nStatus: " ++ r.status.getD "N/A"
    ++ "\nType: MARKET\n\n" ++ envSuffix cfg

/-- The `place_market_order` tool. -/
def place_market_order (cfg : Config) (ticker quantity : String)
    (remote : RemoteOutcome OrderResult) : String × Calls :=
  if pyStrip ticker = "" then ("❌ Error: Ticker symbol is required", [])
  else if pyStrip quantity = "" then ("❌ Error: Quantity is required", [])
  else
    match pyFloat quantity with
    | none => ("❌ Error: Invalid quantity value: " ++ quantity, [])
    | some qf =>
      dispatch (make_request cfg "POST" "/equity/orders/market" remote)
        (fun r => render_market_order cfg ticker qf r)

/-- Formatter of a placed limit order. -/
def render_limit_order (cfg : Config) (ticker : String) (qf lpf : PyNum)
    (tv : String) (r : OrderResult) : String :=
  "✅ Limit Order Placed:\n\nOrder ID: " ++ r.id.getD "N/A"
    ++ "\nTicker: " ++ ticker
    ++ "\nQuantity: " ++ numRepr qf
    ++ "\nLimit Price: " ++ format_currency (.num lpf)
    ++ "\nTime Validity: " ++ tv
    ++ "\nStatus: " ++ r.status.getD "N/A"
    ++ "\n\n" ++ envSuffix cfg

/-- The `place_limit_order` tool.  Both numeric strings are parsed before
any call; either failure yields the single invalid-numeric text. -/
def place_limit_order (cfg : Config) (ticker quantity limit_price tv : String)
    (remote : RemoteOutcome OrderResult) : String × Calls :=
  if pyStrip ticker = "" then ("❌ Error: Ticker symbol is required", [])
  else if pyStrip quantity = "" then ("❌ Error: Quantity is required", [])
  else if pyStrip limit_price = "" then ("❌ Error: Limit price is required", [])
  else
    match pyFloat quantity, pyFloat limit_price with
    | some qf, some lpf =>
      dispatch (make_request cfg "POST" "/equity/orders/limit" remote)
        (fun r => render_limit_order cfg ticker qf lpf tv r)
    | _, _ => ("❌ Error: Invalid numeric value", [])

/-- The effective limit of the three history tools:
`min(int(limit) if limit.strip() else 50, 50)`; `none` models the
`ValueError` of `int(limit)`. -/
def history_limit (limit : String) : Option Int :=
  if pyStrip limit = "" then some 50
  else (pyInt limit).map (fun n => min n 50)

/-- One historical order of `/equity/history/orders`. -/
structure HistOrder where
  id : Option String
  ticker : Option String
  otype : Option String
  quantity : Option ℚ
  filledQuantity : Option ℚ
  fillPrice : Option ℚ
  status : Option String
  dateCreated : Option String

/-- Paged payload of `/equity/history/orders`. -/
structure OrderHistoryPage where
  items : List HistOrder

/-- One block of the order-history listing. -/
def render_hist_order (o : HistOrder) : String :=
  let qty := match o.filledQuantity with
    | some v => v
    | none => o.quantity.getD 0
  let fp := o.fillPrice.getD 0
  "📊 " ++ o.ticker.getD "N/A" ++ " - " ++ o.otype.getD "N/A"
    ++ "\n   Order ID: " ++ o.id.getD "N/A"
    ++ "\n   Quantity: " ++ ratRepr qty
    ++ "\n   Fill Price: "
    ++ (if fp = 0 then "N/A" else format_currency (.num (.fin fp)))
    ++ "\n   Status: " ++ o.status.getD "N/A"
    ++ "\n   Date: " ++ o.dateCreated.getD "N/A"
    ++ "\n   \n"

/-- The `get_order_history` tool. -/
def get_order_history (cfg : Config) (ticker limit : String)
    (remote : RemoteOutcome OrderHistoryPage) : String × Calls :=
  match history_limit limit with
  | none => ("❌ Error: Invalid limit value: " ++ limit, [])
  | some l =>
    let endp :=
      if pyStrip ticker = "" then "/equity/history/orders?limit=" ++ toString l
      else "/equity/history/orders?limit=" ++ toString l ++ ("&ticker=" ++ ticker)
    dispatch (make_request cfg "GET" endp remote) (fun page =>
      if page.items.isEmpty then "📋 No order history found"
      else "📋 Order History:\n\n"
        ++ strConcat (page.items.map render_hist_order) ++ envSuffix cfg)

/-- One dividend of `/history/dividends`. -/
structure Dividend where
  ticker : Option String
  amount : Option ℚ
  quantity : Option ℚ
  dtype : Option String
  paidOn : Option String

/-- Paged payload of `/history/dividends`. -/
structure DividendPage where
  items : List Dividend

/-- One block of the dividend listing. -/
def render_dividend (d : Dividend) : String :=
  "💵 " ++ d.ticker.getD "N/A"
    ++ "\n   Amount: " ++ format_currency (.num (.fin (d.amount.getD 0)))
    ++ "\n   Quantity: " ++ ratRepr (d.quantity.getD 0)
    ++ "\n   Type: " ++ d.dtype.getD "N/A"
    ++ "\n   Paid On: " ++ d.paidOn.getD "N/A"
    ++ "\n   \n"

/-- The `get_dividends` tool. -/
def get_dividends (cfg : Config) (ticker limit : String)
    (remote : RemoteOutcome DividendPage) : String × Calls :=
  match history_limit limit with
  | none => ("❌ Error: Invalid limit value: " ++ limit, [])
  | some l =>
    let endp :=
      if pyStrip ticker = "" then "/history/dividends?limit=" ++ toString l
      else "/history/dividends?limit=" ++ toString l ++ ("&ticker=" ++ ticker)
    dispatch (make_request cfg "GET" endp remote) (fun page =>
      if page.items.isEmpty then "💰 No dividend history found"
      else
        let total := (page.items.map (fun d => d.amount.getD 0)).sum
        "💰 Dividend History:\n\n"
          ++ strConcat (page.items.map render_dividend)
          ++ "\n💰 Total Dividends: " ++ format_currency (.num (.fin total))
          ++ "\n" ++ envSuffix cfg)

/-- One transaction of `/history/transactions`. -/
structure Transaction where
  ttype : Option String
  amount : Option PyVal
  dateTime : Option String
  reference : Option String

/-- Paged payload of `/history/transactions`. -/
structure TransactionPage where
  items : List Transaction

/-- One block of the transaction listing. -/
def render_transaction (t : Transaction) : String :=
  "💳 " ++ t.ttype.getD "N/A"
    ++ "\n   Amount: " ++ format_currency (t.amount.getD (.num (.fin 0)))
    ++ "\n   Date: " ++ t.dateTime.getD "N/A"
    ++ "\n   Reference: " ++ t.reference.getD "N/A"
    ++ "\n   \n"

/-- The `get_transactions` tool. -/
def get_transactions (cfg : Config) (limit : String)
    (remote : RemoteOutcome TransactionPage) : String × Calls :=
  match history_limit limit with
  | none => ("❌ Error: Invalid limit value: " ++ limit, [])
  | some l =>
    dispatch
      (make_request cfg "GET" ("/history/transactions?limit=" ++ toString l) remote)
      (fun page =>
        if page.items.isEmpty then "📊 No transactions found"
        else "📊 Recent Transactions:\n\n"
          ++ strConcat (page.items.map render_transaction) ++ envSuffix cfg)

/-- One holding of a pie. -/
structure PieInstrument where
  ticker : Option String
  shares : Option ℚ
  expectedShare : Option ℚ

/-- Payload of `/equity/pies/{id}`. -/
structure Pie where
  id : Option String
  name : Option String
  status : Option String
  goal : Option PyVal
  result : Option PyVal
  cash : Option PyVal
  dividendCashAction : Option String
  instruments : List PieInstrument

/-- One holdings line of the pie detail view. -/
def render_pie_instrument (i : PieInstrument) : String :=
  "  • " ++ i.ticker.getD "N/A" ++ ": " ++ ratRepr (i.shares.getD 0)
    ++ " shares (" ++ ratRepr (i.expectedShare.getD 0) ++ "%)\n"

/-- Formatter of `get_pie`. -/
def render_pie (cfg : Config) (p : Pie) : String :=
  "🥧 Pie Details: " ++ p.name.getD "N/A"
    ++ "\n\nID: " ++ p.id.getD "N/A"
    ++ "\nStatus: " ++ p.status.getD "N/A"
    ++ "\n\n💰 Finances:\n- Goal: " ++ format_currency (p.goal.getD (.num (.fin 0)))
    ++ "\n- Result: " ++ format_currency (p.result.getD (.num (.fin 0)))
    ++ "\n- Cash: " ++ format_currency (p.cash.getD (.num (.fin 0)))
    ++ "\n- Dividend Action: " ++ p.dividendCashAction.getD "N/A"
    ++ "\n\n📊 Holdings (" ++ toString p.instruments.length ++ " instruments):\n"
    ++ strConcat (p.instruments.map render_pie_instrument)
    ++ "\n" ++ envSuffix cfg

/-- The `get_pie` tool. -/
def get_pie (cfg : Config) (pie_id : String) (remote : RemoteOutcome Pie) :
    String × Calls :=
  if pyStrip pie_id = "" then ("❌ Error: Pie ID is required", [])
  else
    dispatch (make_request cfg "GET" ("/equity/pies/" ++ pie_id) remote)
      (fun p => render_pie cfg p)

/-! Fixtures used by witnesses and counterexamples. -/

/-- A configured live-environment configuration. -/
def cfgW : Config := ⟨"key1", "secret1", "live"⟩

/-- A sample account payload. -/
def acctW : AccountInfo := ⟨some "123", some "USD", none⟩

/-- A sample exchange payload. -/
def exchW : Exchange := ⟨some "NYSE", some "1", [⟨some "09:00", some "17:30"⟩]⟩

/-- A sample instrument family whose names all contain `App`. -/
def instW (n : Nat) : Instrument :=
  ⟨some ("T" ++ toString n), some "Apple", some "USD", some "STOCK"⟩

/-- Eleven instruments matching the query `APP`. -/
def instsW : List Instrument := (List.range 11).map instW

/-- An error response used to exercise the non-2xx path. -/
def respW : HttpResponse AccountInfo := ⟨404, "Not found", none, "boom"⟩

/-- A sample position payload. -/
def posW : Position :=
  ⟨some "AAPL", some 2, some 10, some 12, some 4, some "2024-01-02", some 1, some 1⟩

/-- A sample order payload. -/
def ordW : OrderResult := ⟨some "77", some "FILLED"⟩

/-- A sample pie payload. -/
def pieW : Pie :=
  ⟨some "9", some "Growth", some "AHEAD", none, none, none, some "REINVEST", []⟩

/-! General lemmas about the bridge, shared by several claims. -/

/-- Missing credentials short-circuit `make_request` with no call. -/
theorem notConf_aux {α : Type} (cfg : Config) (method endp : String)
    (remote : RemoteOutcome α) (h : cfg.apiKey = "" ∨ cfg.apiSecret = "") :
    make_request cfg method endp remote = (.error notConfiguredText, []) := by
  unfold make_request
  rw [if_pos h]

/-- A 2xx response with a decoded body yields the body and one call. -/
theorem make_request_ok {α : Type} (cfg : Config) (method endp : String) (v : α)
    (hk : cfg.apiKey ≠ "") (hs : cfg.apiSecret ≠ "")
    (hm : method ∈ supportedMethods) :
    make_request cfg method endp (okResponse v)
      = (.ok v, [(method, get_base_url cfg.environment ++ endp)]) := by
  unfold make_request okResponse
  rw [if_neg (by simp [hk, hs]), if_pos hm]
  rfl

/-- A non-2xx response yields the API-error text and one call. -/
theorem apierr_aux {α : Type} (cfg : Config) (method endp : String)
    (r : HttpResponse α) (hk : cfg.apiKey ≠ "") (hs : cfg.apiSecret ≠ "")
    (hm : method ∈ supportedMethods)
    (hst : r.statusCode < 200 ∨ 300 ≤ r.statusCode) :
    make_request cfg method endp (.response r)
      = (.error (apiErrorText r.statusCode r.text r.statusText),
         [(method, get_base_url cfg.environment ++ endp)]) := by
  have hcond : ¬(200 ≤ r.statusCode ∧ r.statusCode < 300) := by omega
  unfold make_request
  rw [if_neg (by simp [hk, hs]), if_pos hm]
  show handleResponse method (get_base_url cfg.environment ++ endp) r = _
  unfold handleResponse
  rw [if_neg hcond]

/-- `dispatch` passes an error text through unchanged. -/
theorem dispatch_error {α : Type} (e : String) (c : Calls) (f : α → String) :
    dispatch ((Except.error e, c) : Except String α × Calls) f = (e, c) := rfl

/-- `dispatch` applies the formatter to a decoded payload. -/
theorem dispatch_ok {α : Type} (v : α) (c : Calls) (f : α → String) :
    dispatch ((Except.ok v, c) : Except String α × Calls) f = (f v, c) := rfl

/-- The calls of a dispatched operation are those of the bridge. -/
theorem dispatch_snd {α : Type} (mr : Except String α × Calls) (f : α → String) :
    (dispatch mr f).2 = mr.2 := by
  rcases mr with ⟨res, c⟩
  cases res <;> rfl

/-- With credentials present and a supported method, exactly one call is
made, whatever the remote does. -/
theorem make_request_calls {α : Type} (cfg : Config) (method endp : String)
    (remote : RemoteOutcome α) (hk : cfg.apiKey ≠ "") (hs : cfg.apiSecret ≠ "")
    (hm : method ∈ supportedMethods) :
    (make_request cfg method endp remote).2
      = [(method, get_base_url cfg.environment ++ endp)] := by
  unfold make_request
  rw [if_neg (by simp [hk, hs]), if_pos hm]
  cases remote with
  | transportFailure m => rfl
  | response r =>
    show (handleResponse method (get_base_url cfg.environment ++ endp) r).2 = _
    unfold handleResponse
    by_cases h : 200 ≤ r.statusCode ∧ r.statusCode < 300
    · rw [if_pos h]
      cases r.json <;> rfl
    · rw [if_neg h]

/-- An effective history limit never exceeds 50. -/
theorem history_limit_le (limit : String) (l : Int)
    (hl : history_limit limit = some l) : l ≤ 50 := by
  unfold history_limit at hl
  by_cases hb : pyStrip limit = ""
  · rw [if_pos hb] at hl
    simp only [Option.some.injEq] at hl
    omega
  · rw [if_neg hb] at hl
    cases hp : pyInt limit with
    | none => rw [hp] at hl; simp at hl
    | some n =>
      rw [hp] at hl
      simp at hl
      omega

/-- C1 (amended): a value case-insensitively equal to `live` selects the
live endpoint; any other present value selects the demo endpoint; an absent
environment variable defaults to `live` and therefore also selects the live
endpoint. -/
theorem get_base_url_spec (env : String) :
    (pyLower env = "live" → get_base_url env = LIVE_BASE_URL)
    ∧ (pyLower env ≠ "live" → get_base_url env = DEMO_BASE_URL)
    ∧ resolved_base_url none = LIVE_BASE_URL := by
  refine ⟨fun h => ?_, fun h => ?_, ?_⟩
  · unfold get_base_url
    rw [if_pos h]
  · unfold get_base_url
    rw [if_neg h]
  · decide

/-- C1 counterexample: with the environment variable absent the resolved
base URL is the live one, not the demo one as the claim states. -/
theorem resolved_base_url_absent_cex : resolved_base_url none ≠ DEMO_BASE_URL := by
  decide

/-- C1 witness. -/
theorem get_base_url_spec_w : get_base_url "LIVE" = LIVE_BASE_URL :=
  (get_base_url_spec "LIVE").1 (by decide)

/-- C2: with an empty API key or secret, `make_request` returns the
not-configured text for every method and endpoint and performs no network
call, and the operations pass that text through unchanged. -/
theorem not_configured_spec {α : Type} (cfg : Config) (method endp : String)
    (remote : RemoteOutcome α) (racc : RemoteOutcome AccountInfo)
    (rport : RemoteOutcome (List Position))
    (h : cfg.apiKey = "" ∨ cfg.apiSecret = "") :
    make_request cfg method endp remote = (.error notConfiguredText, [])
    ∧ get_account_info cfg racc = (notConfiguredText, [])
    ∧ get_portfolio cfg rport = (notConfiguredText, []) := by
  refine ⟨notConf_aux cfg method endp remote h, ?_, ?_⟩
  · unfold get_account_info
    rw [notConf_aux cfg "GET" "/equity/account/info" racc h]
    rfl
  · unfold get_portfolio
    rw [notConf_aux cfg "GET" "/equity/portfolio" rport h]
    rfl

/-- C2 witness. -/
theorem not_configured_spec_w :
    make_request (⟨"", "secret1", "live"⟩ : Config) "GET" "/equity/account/info"
        (okResponse acctW)
      = (.error notConfiguredText, []) :=
  (not_configured_spec (⟨"", "secret1", "live"⟩ : Config) "GET"
    "/equity/account/info" (okResponse acctW) (okResponse acctW)
    (okResponse []) (Or.inl rfl)).1

/-- C3: a non-2xx response makes the bridge fail with the marker, the
numeric status code and the verbatim body (falling back to the exception
text when the body is empty), and the operation returns that text
unchanged. -/
theorem api_error_spec (cfg : Config) (method endp : String)
    (r : HttpResponse AccountInfo)
    (hk : cfg.apiKey ≠ "") (hs : cfg.apiSecret ≠ "")
    (hm : method ∈ supportedMethods)
    (hst : r.statusCode < 200 ∨ 300 ≤ r.statusCode) :
    make_request cfg method endp (.response r)
      = (.error (apiErrorText r.statusCode r.text r.statusText),
         [(method, get_base_url cfg.environment ++ endp)])
    ∧ get_account_info cfg (.response r)
      = (apiErrorText r.statusCode r.text r.statusText,
         [("GET", get_base_url cfg.environment ++ "/equity/account/info")]) := by
  refine ⟨apierr_aux cfg method endp r hk hs hm hst, ?_⟩
  unfold get_account_info
  rw [apierr_aux cfg "GET" "/equity/account/info" r hk hs (by decide) hst]
  rfl

/-- C3 witness. -/
theorem api_error_spec_w :
    make_request cfgW "GET" "/x" (.response respW)
      = (.error (apiErrorText respW.statusCode respW.text respW.statusText),
         [("GET", get_base_url cfgW.environment ++ "/x")]) :=
  (api_error_spec cfgW "GET" "/x" respW (by decide) (by decide) (by decide)
    (by decide)).1

/-- C4: the displayed return percentage is `ppl / (avg * qty) * 100` when
the denominator is positive and `0` when it is not, in particular for an
average price of 10 and a quantity of 0. -/
theorem return_percent_spec (ppl avg qty : ℚ) :
    (avg * qty > 0 → return_percent ppl avg qty = ppl / (avg * qty) * 100)
    ∧ (avg * qty ≤ 0 → return_percent ppl avg qty = 0)
    ∧ return_percent ppl 10 0 = 0 := by
  refine ⟨fun h => ?_, fun h => ?_, ?_⟩
  · unfold return_percent
    rw [if_pos h]
  · unfold return_percent
    rw [if_neg (not_lt.mpr h)]
  · unfold return_percent
    rw [if_neg (by norm_num)]

/-- C4 witness. -/
theorem return_percent_spec_w : return_percent 5 10 2 = 5 / (10 * 2) * 100 :=
  (return_percent_spec 5 10 2).1 (by norm_num)

/-- C5: the effective limit of the history tools is capped at 50 before the
call is made (in particular `1000` becomes `50`), and the single request of
each tool carries exactly that effective limit. -/
theorem history_limit_capped (cfg : Config) (limit : String) (l : Int)
    (r1 : RemoteOutcome OrderHistoryPage) (r2 : RemoteOutcome DividendPage)
    (r3 : RemoteOutcome TransactionPage)
    (hk : cfg.apiKey ≠ "") (hs : cfg.apiSecret ≠ "")
    (hl : history_limit limit = some l) :
    l ≤ 50 ∧ history_limit "1000" = some 50
    ∧ (get_order_history cfg "" limit r1).2
        = [("GET", get_base_url cfg.environment
            ++ ("/equity/history/orders?limit=" ++ toString l))]
    ∧ (get_dividends cfg "" limit r2).2
        = [("GET", get_base_url cfg.environment
            ++ ("/history/dividends?limit=" ++ toString l))]
    ∧ (get_transactions cfg limit r3).2
        = [("GET", get_base_url cfg.environment
            ++ ("/history/transactions?limit=" ++ toString l))] := by
  refine ⟨history_limit_le limit l hl, by decide, ?_, ?_, ?_⟩
  · unfold get_order_history
    rw [hl]
    show (dispatch
      (make_request cfg "GET" ("/equity/history/orders?limit=" ++ toString l) r1) _).2 = _
    rw [dispatch_snd, make_request_calls cfg "GET" _ r1 hk hs (by decide)]
  · unfold get_dividends
    rw [hl]
    show (dispatch
      (make_request cfg "GET" ("/history/dividends?limit=" ++ toString l) r2) _).2 = _
    rw [dispatch_snd, make_request_calls cfg "GET" _ r2 hk hs (by decide)]
  · unfold get_transactions
    rw [hl]
    show (dispatch
      (make_request cfg "GET" ("/history/transactions?limit=" ++ toString l) r3) _).2 = _
    rw [dispatch_snd, make_request_calls cfg "GET" _ r3 hk hs (by decide)]

/-- C5 witness. -/
theorem history_limit_capped_w :
    (get_order_history cfgW "" "1000" (okResponse (⟨[]⟩ : OrderHistoryPage))).2
      = [("GET", get_base_url cfgW.environment
          ++ ("/equity/history/orders?limit=" ++ toString (50 : Int)))] :=
  (history_limit_capped cfgW "1000" 50 (okResponse (⟨[]⟩ : OrderHistoryPage))
    (okResponse (⟨[]⟩ : DividendPage)) (okResponse (⟨[]⟩ : TransactionPage))
    (by decide) (by decide) (by decide)).2.2.1

/-- C6: the search filter keeps exactly the instruments whose ticker or
name contains the query case-insensitively, and with 11 matches the output
shows exactly the first 10 followed by the trailing one-more note. -/
theorem search_instruments_spec (cfg : Config) (query : String)
    (insts : List Instrument) (i : Instrument)
    (hk : cfg.apiKey ≠ "") (hs : cfg.apiSecret ≠ "") (hq : pyStrip query ≠ "") :
    (i ∈ searchMatches query insts ↔ i ∈ insts ∧ matchesQuery query i = true)
    ∧ ((searchMatches query insts).length = 11 →
        ((searchMatches query insts).take 10).length = 10
        ∧ (search_instruments cfg query (okResponse insts)).1
            = search_header query
              ++ strConcat (((searchMatches query insts).take 10).map render_instrument)
              ++ "... and 1 more results\n") := by
  constructor
  · exact List.mem_filter
  · intro hlen
    have hne2 : searchMatches query insts ≠ [] := by
      intro h
      rw [h] at hlen
      simp at hlen
    have hne : (searchMatches query insts).isEmpty = false := by
      rw [Bool.eq_false_iff]
      intro hEmp
      exact hne2 (List.isEmpty_iff.mp hEmp)
    have hgt : (searchMatches query insts).length > 10 := by omega
    constructor
    · rw [List.length_take, hlen]
      rfl
    · unfold search_instruments
      rw [if_neg hq,
        make_request_ok cfg "GET" "/equity/metadata/instruments" insts hk hs
          (by decide),
        dispatch_ok]
      show search_render query insts = _
      unfold search_render
      simp only [hne, Bool.false_eq_true, if_false]
      rw [if_pos hgt, hlen]
      rfl

/-- C6 witness. -/
theorem search_instruments_spec_w :
    ((searchMatches "APP" instsW).take 10).length = 10 :=
  ((search_instruments_spec cfgW "APP" instsW (instW 0) (by decide) (by decide)
    (by decide)).2 (by decide)).1

/-- C7: a blank required string input (ticker, quantity, pie id) makes the
operation return its validation text with no network call. -/
theorem blank_input_spec (cfg : Config) (s t : String)
    (r1 : RemoteOutcome Position) (r2 : RemoteOutcome OrderResult)
    (r3 : RemoteOutcome Pie) (hs : pyStrip s = "") :
    get_position cfg s r1 = ("❌ Error: Ticker symbol is required", [])
    ∧ place_market_order cfg s t r2 = ("❌ Error: Ticker symbol is required", [])
    ∧ (pyStrip t ≠ "" →
        place_market_order cfg t s r2 = ("❌ Error: Quantity is required", []))
    ∧ get_pie cfg s r3 = ("❌ Error: Pie ID is required", []) := by
  refine ⟨?_, ?_, fun ht => ?_, ?_⟩
  · unfold get_position
    rw [if_pos hs]
  · unfold place_market_order
    rw [if_pos hs]
  · unfold place_market_order
    rw [if_neg ht, if_pos hs]
  · unfold get_pie
    rw [if_pos hs]

/-- C7 witness. -/
theorem blank_input_spec_w :
    get_position cfgW " " (okResponse posW)
      = ("❌ Error: Ticker symbol is required", []) :=
  (blank_input_spec cfgW " " "AAPL" (okResponse posW) (okResponse ordW)
    (okResponse pieW) (by decide)).1

/-- C8: a non-numeric string for a numeric-typed input (quantity, limit
price, history limit) makes the operation return its invalid-numeric text
with no network call. -/
theorem invalid_numeric_spec (cfg : Config) (q lp limit : String)
    (r1 r2 : RemoteOutcome OrderResult) (r3 : RemoteOutcome OrderHistoryPage)
    (hqb : pyStrip q ≠ "") (hq : pyFloat q = none) :
    place_market_order cfg "AAPL" q r1
      = ("❌ Error: Invalid quantity value: " ++ q, [])
    ∧ (pyStrip lp ≠ "" →
        place_limit_order cfg "AAPL" q lp "DAY" r2
          = ("❌ Error: Invalid numeric value", []))
    ∧ (pyStrip limit ≠ "" → pyInt limit = none →
        get_order_history cfg "" limit r3
          = ("❌ Error: Invalid limit value: " ++ limit, [])) := by
  refine ⟨?_, fun hlp => ?_, fun hlb hli => ?_⟩
  · unfold place_market_order
    rw [if_neg (by decide : ¬(pyStrip "AAPL" = "")), if_neg hqb, hq]
  · unfold place_limit_order
    rw [if_neg (by decide : ¬(pyStrip "AAPL" = "")), if_neg hqb, if_neg hlp, hq]
  · have hnone : history_limit limit = none := by
      unfold history_limit
      rw [if_neg hlb, hli]
      rfl
    unfold get_order_history
    rw [hnone]

/-- C8 witness. -/
theorem invalid_numeric_spec_w :
    place_market_order cfgW "AAPL" "abc" (okResponse ordW)
      = ("❌ Error: Invalid quantity value: " ++ "abc", []) :=
  (invalid_numeric_spec cfgW "abc" "zz" "zz" (okResponse ordW) (okResponse ordW)
    (okResponse (⟨[]⟩ : OrderHistoryPage)) (by decide) (by decide)).1

/-! Last-character lemmas used to separate the listings that do not carry
the environment banner from the ones that do. -/

/-- Appending a nonempty string keeps its character list nonempty. -/
theorem append_toList_ne (a b : String) (hb : b.toList ≠ []) :
    (a ++ b).toList ≠ [] := by
  show (a ++ b).data ≠ []
  rw [String.data_append]
  intro h
  rcases List.append_eq_nil.mp h with ⟨_, h2⟩
  exact hb h2

/-- The last character of an appended string is that of a nonempty tail. -/
theorem lastChar_append (a b : String) (hb : b.toList ≠ []) :
    lastChar (a ++ b) = lastChar b := by
  show ((a ++ b).data).getLast? = (b.data).getLast?
  rw [String.data_append, List.getLast?_append]
  cases hB : (b.data).getLast? with
  | none =>
    rw [List.getLast?_eq_none_iff] at hB
    exact absurd hB hb
  | some c => rfl

/-- A string whose last character is known has a nonempty character list. -/
theorem lastChar_some_ne (s : String) (c : Char) (h : lastChar s = some c) :
    s.toList ≠ [] := by
  intro hempty
  rw [lastChar, hempty] at h
  simp at h

/-- A nonempty concatenation of blocks all ending in `c` ends in `c`. -/
theorem strConcat_lastChar (c : Char) :
    ∀ l : List String, l ≠ [] → (∀ s ∈ l, lastChar s = some c) →
      lastChar (strConcat l) = some c := by
  intro l
  induction l with
  | nil => intro h; exact absurd rfl h
  | cons x xs ih =>
    intro _ hall
    by_cases hxs : xs = []
    · subst hxs
      show lastChar (x ++ strConcat []) = some c
      have h0 : strConcat ([] : List String) = "" := rfl
      rw [h0, String.append_empty]
      exact hall x (by simp)
    · have hxc : lastChar (strConcat xs) = some c :=
        ih hxs (fun s hsmem => hall s (List.mem_cons_of_mem x hsmem))
      show lastChar (x ++ strConcat xs) = some c
      rw [lastChar_append x (strConcat xs) (lastChar_some_ne _ c hxc)]
      exact hxc

/-- Every exchange block ends with a newline. -/
theorem render_exchange_lastChar (e : Exchange) :
    lastChar (render_exchange e) = some '\n' := by
  unfold render_exchange
  rw [lastChar_append _ "\n" (by decide)]
  rfl

/-- Every instrument block ends with a newline. -/
theorem render_instrument_lastChar (i : Instrument) :
    lastChar (render_instrument i) = some '\n' := by
  unfold render_instrument
  rw [lastChar_append _ "\n\n" (by decide)]
  rfl

/-- A nonempty take of a nonempty list is nonempty. -/
theorem take10_ne {α : Type} (l : List α) (h : l ≠ []) : l.take 10 ≠ [] := by
  cases l with
  | nil => exact absurd rfl h
  | cons a l => simp [List.take_succ_cons]

/-- The exchange listing for a nonempty list ends with a newline. -/
theorem render_exchanges_page_last (exs : List Exchange) (hne : exs ≠ []) :
    lastChar (render_exchanges_page exs) = some '\n' := by
  unfold render_exchanges_page
  have hEmp : exs.isEmpty = false := by
    rw [Bool.eq_false_iff]
    intro h
    exact hne (List.isEmpty_iff.mp h)
  rw [hEmp]
  simp only [Bool.false_eq_true, if_false]
  have hconc : lastChar (strConcat (exs.map render_exchange)) = some '\n' := by
    refine strConcat_lastChar '\n' (exs.map render_exchange) (by simpa using hne) ?_
    intro s hsmem
    rcases List.mem_map.mp hsmem with ⟨e, _, rfl⟩
    exact render_exchange_lastChar e
  rw [lastChar_append _ _ (lastChar_some_ne _ '\n' hconc)]
  exact hconc

/-- The search output ends with a newline or with the closing quote of the
no-match message; in particular never with the environment name. -/
theorem search_render_last (query : String) (insts : List Instrument) :
    lastChar (search_render query insts) = some '\n'
    ∨ lastChar (search_render query insts) = some '\x27' := by
  unfold search_render
  by_cases hms : (searchMatches query insts).isEmpty
  · rw [if_pos hms]
    right
    rw [lastChar_append _ "\x27" (by decide)]
    rfl
  · rw [if_neg hms]
    left
    have hnil : searchMatches query insts ≠ [] := by
      intro h
      exact hms (by rw [h]; rfl)
    have hconc :
        lastChar (strConcat (((searchMatches query insts).take 10).map
          render_instrument)) = some '\n' := by
      refine strConcat_lastChar '\n' _ ?_ ?_
      · simpa using take10_ne _ hnil
      · intro s hsmem
        rcases List.mem_map.mp hsmem with ⟨j, _, rfl⟩
        exact render_instrument_lastChar j
    by_cases hgt : (searchMatches query insts).length > 10
    · rw [if_pos hgt]
      rw [lastChar_append _ _ (append_toList_ne _ " more results\n" (by decide))]
      rw [lastChar_append _ " more results\n" (by decide)]
      rfl
    · rw [if_neg hgt, String.append_empty]
      rw [lastChar_append _ _ (lastChar_some_ne _ '\n' hconc)]
      exact hconc

/-- C9 (amended): on a successful call `get_account_info` appends the
environment banner, and so does `get_portfolio` when the portfolio is
nonempty; but the empty-portfolio short-circuit text carries no banner, and
`list_exchanges` and `search_instruments` return their listing without it,
so not every successful result text carries the environment name. -/
theorem environment_suffix_spec (cfg : Config) (acct : AccountInfo)
    (ps : List Position) (exs : List Exchange) (query : String)
    (insts : List Instrument)
    (hk : cfg.apiKey ≠ "") (hs : cfg.apiSecret ≠ "")
    (hexs : exs ≠ []) (hq : pyStrip query ≠ "")
    (hc : cfg.environment = "live") :
    (∃ p, (get_account_info cfg (okResponse acct)).1 = p ++ envSuffix cfg)
    ∧ (ps ≠ [] →
        ∃ p, (get_portfolio cfg (okResponse ps)).1 = p ++ envSuffix cfg)
    ∧ (get_portfolio cfg (okResponse ([] : List Position))).1
        = "📊 Portfolio is empty"
    ∧ (∀ p, (get_portfolio cfg (okResponse ([] : List Position))).1
        ≠ p ++ envSuffix cfg)
    ∧ (∀ p, (list_exchanges cfg (okResponse exs)).1 ≠ p ++ envSuffix cfg)
    ∧ (∀ p, (search_instruments cfg query (okResponse insts)).1
        ≠ p ++ envSuffix cfg) := by
  have henv : envSuffix cfg = "Environment: LIVE" := by
    unfold envSuffix
    rw [hc]
    rfl
  have hpe : (get_portfolio cfg (okResponse ([] : List Position))).1
      = "📊 Portfolio is empty" := by
    unfold get_portfolio
    rw [make_request_ok cfg "GET" "/equity/portfolio" ([] : List Position)
      hk hs (by decide), dispatch_ok]
    rfl
  refine ⟨?_, fun hps => ?_, hpe, ?_, ?_, ?_⟩
  · unfold get_account_info
    rw [make_request_ok cfg "GET" "/equity/account/info" acct hk hs (by decide),
      dispatch_ok]
    exact ⟨_, rfl⟩
  · unfold get_portfolio
    rw [make_request_ok cfg "GET" "/equity/portfolio" ps hk hs (by decide),
      dispatch_ok]
    show ∃ p, render_portfolio_page cfg ps = p ++ envSuffix cfg
    unfold render_portfolio_page
    have hEmp : ps.isEmpty = false := by
      rw [Bool.eq_false_iff]
      intro h
      exact hps (List.isEmpty_iff.mp h)
    rw [hEmp]
    simp only [Bool.false_eq_true, if_false]
    exact ⟨_, rfl⟩
  · intro p heq
    rw [hpe, henv] at heq
    have h2 := congrArg lastChar heq
    rw [lastChar_append p "Environment: LIVE" (by decide)] at h2
    exact absurd h2 (by decide)
  · intro p heq
    have h1 : lastChar (list_exchanges cfg (okResponse exs)).1 = some '\n' := by
      unfold list_exchanges
      rw [make_request_ok cfg "GET" "/equity/metadata/exchanges" exs hk hs
        (by decide), dispatch_ok]
      exact render_exchanges_page_last exs hexs
    rw [heq, henv, lastChar_append p _ (by decide)] at h1
    exact absurd h1 (by decide)
  · intro p heq
    have h1 : (search_instruments cfg query (okResponse insts)).1
        = search_render query insts := by
      unfold search_instruments
      rw [if_neg hq,
        make_request_ok cfg "GET" "/equity/metadata/instruments" insts hk hs
          (by decide), dispatch_ok]
    rw [h1] at heq
    rcases search_render_last query insts with h2 | h2 <;>
      rw [heq, henv, lastChar_append p _ (by decide)] at h2 <;>
      exact absurd h2 (by decide)

/-- C9 counterexample: a successful `list_exchanges` result does not end
with the environment name. -/
theorem list_exchanges_env_cex :
    endsWithStr (list_exchanges cfgW (okResponse [exchW])).1
      (pyUpper cfgW.environment) = false := by
  decide

/-- C9 witness. -/
theorem environment_suffix_spec_w :
    ∃ p, (get_account_info cfgW (okResponse acctW)).1 = p ++ envSuffix cfgW :=
  (environment_suffix_spec cfgW acctW [posW] [exchW] "APP" instsW (by decide)
    (by decide) (by simp) (by decide) rfl).1

/-- C10: `format_currency` is total: a numeric value (or a string that
parses as one) is rendered as a dollar amount with thousands separators and
two decimals, `1234.5` in particular as `$1,234.50`, and a non-convertible
value is returned in its own string form verbatim. -/
theorem format_currency_spec (s t : String) (x : PyNum)
    (hsn : pyFloat s = none) (htx : pyFloat t = some x) :
    format_currency (.num (.fin (2469 / 2))) = "$1,234.50"
    ∧ format_currency (.str s) = s
    ∧ format_currency (.str t) = "$" ++ numTwoDec x
    ∧ format_currency (.num x) = "$" ++ numTwoDec x := by
  refine ⟨?_, ?_, ?_, rfl⟩
  · show "$" ++ commaTwoDec (2469 / 2) = "$1,234.50"
    have hneg : ¬((2469 : ℚ) / 2 < 0) := by norm_num
    have hfloor : (⌊((2469 : ℚ) / 2) * 100 + 1 / 2⌋ : ℤ) = 123450 := by
      norm_num
    have hcents : centsOf (2469 / 2) = 123450 := by
      unfold centsOf
      rw [if_neg hneg, hfloor]
      rfl
    unfold commaTwoDec
    rw [hcents, if_neg hneg]
    rfl
  · show (match pyFloat s with
      | some y => "$" ++ numTwoDec y
      | none => s) = s
    rw [hsn]
  · show (match pyFloat t with
      | some y => "$" ++ numTwoDec y
      | none => t) = "$" ++ numTwoDec x
    rw [htx]

/-- C10 witness. -/
theorem format_currency_spec_w : format_currency (.str "hello") = "hello" :=
  (format_currency_spec "hello" "2" (.fin 2) (by decide) (by decide)).2.1

end Trading212
